import Mathlib

/-!
Verification development for the RezOS `mkfs` image builder
(`src/mkfs/main.rs`, `src/mkfs/config.rs`) and the kernel's static
console logger (`src/kernel/src/log.rs`).

Bytes are modelled as natural numbers and byte buffers as `List Nat`.
The host filesystem is modelled as a partial map from path strings to
byte buffers, and the file operations `mkfs` performs are recorded in a
trace so that ordering properties ("no write happened before the error")
are statable.

The repository's `blocks` module (`Addr`, `Cluster`, `Inode`,
`SuperBlock`, `Node`) is referenced by `src/mkfs/main.rs` but its source
file is not part of the sources at hand; those definitions are modelled
from the spec and each carries a doc comment saying so.
-/

/-- `SECTOR_SIZE` from `src/mkfs/config.rs`. -/
def SECTOR_SIZE : Nat := 512

/-- `DEFAULT_BLOCK_SIZE` from `src/mkfs/config.rs`. -/
def DEFAULT_BLOCK_SIZE : Nat := 512

/-- Modelled from the spec: `config::DIRECT_BOOT_TARGET`, the configured
direct-boot target name referenced at `src/mkfs/main.rs:134`; the constant
itself is missing from the `src/mkfs/config.rs` at hand. The spec calls it
"the configured direct-boot target name"; its concrete value is irrelevant
to the theorems below, which compare names against it symbolically. -/
def DIRECT_BOOT_TARGET : String := "kernel.bin"

/-- Modelled from the spec: the `Addr` sector-index type of the missing
`blocks` module, "an unsigned integer sector index into the image, counted
from 0"; modelled as `Nat`. -/
def Addr : Type := Nat

/-- `NODES_OFFSET` from `src/mkfs/main.rs:17`: sector 0 is the bootloader,
sector 1 the superblock, nodes start at sector 2. -/
def NODES_OFFSET : Nat := 2

/-- Modelled from the spec: the `Cluster` extent of the missing `blocks`
module, "an inclusive range `[start, end]` of Addresses describing a
contiguous run of sectors". The field `stop` models the Rust field `end`
(a reserved word in Lean). -/
structure Cluster where
  start : Nat
  stop : Nat
deriving DecidableEq, Repr

/-- Modelled from the spec: `Cluster::new`, which constructs "an Extent
from a start and end Address" — a plain constructor. -/
def Cluster.new (s e : Nat) : Cluster := ⟨s, e⟩

/-- Modelled from the spec: the `Inode` record of the missing `blocks`
module: a fixed-capacity name buffer and an array of extents `dat` of
which the builder populates only slot 0; `dat0` models `dat[0]`. -/
structure Inode where
  name : String
  dat0 : Cluster
deriving DecidableEq, Repr

/-- Modelled from the spec: the `SuperBlock` record of the missing
`blocks` module: a version discriminator, the configured block size and
an optional direct-boot extent. -/
structure SuperBlock where
  version : Nat
  block_size : Nat
  directboot : Option Cluster
deriving DecidableEq, Repr

/-- Modelled from the spec: `SuperBlock::new(version, block_size)`
"produces a Superblock with `directboot = absent`". -/
def SuperBlock.new (version block_size : Nat) : SuperBlock :=
  ⟨version, block_size, none⟩

/-- Modelled from the spec: the `Node` union of the missing `blocks`
module, "a tagged choice between `this sector holds an Inode` and `this
sector holds a raw 512-byte data block`" (the spec directs modelling it
as an explicit tagged variant in memory). -/
inductive Node where
  | inode (i : Inode)
  | dnode (d : List Nat)

/-- Pad-or-truncate a byte buffer to exactly `n` bytes (zero padding on
the tail); used for the fixed-layout record encodings. -/
def padTrunc (n : Nat) (l : List Nat) : List Nat :=
  (l ++ List.replicate (n - l.length) 0).take n

/-- Modelled from the spec: `size_of::<SuperBlock>()`, the fixed size of
the serialized superblock record ("fixed-size record ... no
variable-length fields are permitted"); the concrete value lives in the
missing `blocks` module, any fixed value serves the theorems below. -/
def SB_SIZE : Nat := 16

/-- Modelled from the spec: the fixed-layout serialization of the
superblock, "a fixed-layout, deterministic byte encoding"; always exactly
`SB_SIZE` bytes. -/
def serializeSB (sb : SuperBlock) : List Nat :=
  padTrunc SB_SIZE ([sb.version, sb.block_size] ++
    match sb.directboot with
    | none => [0]
    | some c => [1, c.start, c.stop])

/-- Modelled from the spec: the serialization of an inode record, "one
fixed-size record, exactly `SECTOR_SIZE` bytes". -/
def serializeInode (i : Inode) : List Nat :=
  padTrunc SECTOR_SIZE (i.name.toList.map Char.toNat ++ [i.dat0.start, i.dat0.stop])

/-- Serialization of one `Node` into the image body: an inode serializes
to its `SECTOR_SIZE`-byte record; a data node is its raw sector bytes
(`src/mkfs/main.rs:65-72` writes `SECTOR_SIZE` bytes per node). -/
def serializeNode : Node → List Nat
  | Node.inode i => serializeInode i
  | Node.dnode d => d

/-- The `Image` structure of `src/mkfs/main.rs:44-48`: superblock, boot
bytes and the node stream. -/
structure Image where
  sb : SuperBlock
  boot : List Nat
  nodes : List Node

/-- `Image::build` (`src/mkfs/main.rs:60-73`): boot bytes, then the
serialized superblock, then each node as one sector, back to back. -/
def Image.build (img : Image) : List Nat :=
  img.boot ++ serializeSB img.sb ++ (img.nodes.map serializeNode).flatten

/-- `Target` from `src/mkfs/config.rs:14-18`. -/
inductive Target where
  | file (s : String)
  | dir (ts : List Target)
  | raw (data : List Nat)

/-- `Config` from `src/mkfs/config.rs:20-26`. -/
structure Config where
  bootloader : Target
  output : Target
  source : Target
  directboot : Bool
  block_size : Nat

/-- `MkfsError` from `src/mkfs/main.rs:19-25`. -/
inductive MkfsError where
  | BadConfig
  | FileNotFound (name : String)
  | EmptyBootloader
  | InvalidInode (size : Nat)
deriving DecidableEq, Repr

/-- `MkfsReport` from `src/mkfs/main.rs:27-31`. -/
structure MkfsReport where
  fssize : Nat
  inode_count : Nat
  dnode_count : Nat
deriving DecidableEq, Repr

/-- The host filesystem, modelled as a partial map from path to file
bytes (the spec treats host file reading as "an opaque byte source"). -/
def FS : Type := String → Option (List Nat)

/-- A host-filesystem operation performed by the build, recorded in a
trace: a successful open-and-read of a path, or a create-and-write. -/
inductive FsOp where
  | read (path : String)
  | write (path : String) (data : List Nat)
deriving DecidableEq, Repr

/-- Step 1 of `mkfs` (`src/mkfs/main.rs:78-90`): load the bootloader
bytes from a file or raw source, together with the trace of file reads
performed. -/
def loadBoot (cfg : Config) (fs : FS) : Except MkfsError (List Nat) × List FsOp :=
  match cfg.bootloader with
  | Target.file name =>
    match fs name with
    | some bytes => (Except.ok bytes, [FsOp.read name])
    | none => (Except.error (MkfsError.FileNotFound name), [])
  | Target.raw data => (Except.ok data, [])
  | Target.dir _ => (Except.error MkfsError.BadConfig, [])

/-- Modelled from `Path::new(name).file_name()` at `src/mkfs/main.rs:132`:
the final path component (the characters after the last slash). -/
def fileName (s : String) : String :=
  (s.toList.foldl (fun acc c => if c = '/' then [] else acc ++ [c]) []).asString

/-- The extent computed for the payload at `src/mkfs/main.rs:122-130`:
start at `NODES_OFFSET`, end at `NODES_OFFSET` plus the block count
expression `len / SECTOR_SIZE + (len % SECTOR_SIZE > 0) as usize`. -/
def payloadCluster (len : Nat) : Cluster :=
  Cluster.new NODES_OFFSET
    (NODES_OFFSET + (len / SECTOR_SIZE + (if len % SECTOR_SIZE > 0 then 1 else 0)))

/-- The number of data-node loop iterations at `src/mkfs/main.rs:148`:
the range `location.start..location.end + 1`. -/
def payloadSectors (len : Nat) : Nat :=
  (payloadCluster len).stop + 1 - (payloadCluster len).start

/-- The data-sector materialization loop of `src/mkfs/main.rs:148-160`:
`n` iterations; while at least `SECTOR_SIZE` bytes remain a full sector
is drained, otherwise the remaining bytes are copied into the low offsets
of a fresh zeroed sector (which empties the buffer for the iterations
after it). -/
def makeDnodes : Nat → List Nat → List (List Nat)
  | 0, _ => []
  | Nat.succ n, content =>
    if SECTOR_SIZE ≤ content.length then
      content.take SECTOR_SIZE :: makeDnodes n (content.drop SECTOR_SIZE)
    else
      (content ++ List.replicate (SECTOR_SIZE - content.length) 0) :: makeDnodes n []

/-- The layout phase of `mkfs` (`src/mkfs/main.rs:77-166`), up to but not
including the output write: loads the bootloader (rejecting an empty
one), checks the inode-size invariant (`isz` models the compile-time
constant `size_of::<Inode>()` of the missing `blocks` module), loads the
payload, computes its extent, builds the superblock/inode/data sectors
and the node stream. Returns the built image, the inode container and
the data-node container, plus the trace of file reads. -/
def mkfsCore (isz : Nat) (cfg : Config) (fs : FS) :
    Except MkfsError (Image × List Inode × List (List Nat)) × List FsOp :=
  match loadBoot cfg fs with
  | (Except.error e, tr) => (Except.error e, tr)
  | (Except.ok boot, tr) =>
    if boot = [] then (Except.error MkfsError.EmptyBootloader, tr)
    else if isz ≠ SECTOR_SIZE then (Except.error (MkfsError.InvalidInode isz), tr)
    else
      match cfg.source with
      | Target.file name =>
        match fs name with
        | some content =>
          let location := payloadCluster content.length
          let fname := fileName name
          let sb :=
            if cfg.directboot = true ∧ fname = DIRECT_BOOT_TARGET then
              { SuperBlock.new 1 cfg.block_size with directboot := some location }
            else SuperBlock.new 1 cfg.block_size
          let inode : Inode := ⟨fname, location⟩
          let dnodes := makeDnodes (location.stop + 1 - location.start) content
          (Except.ok (⟨sb, boot, Node.inode inode :: dnodes.map Node.dnode⟩,
            [inode], dnodes), tr ++ [FsOp.read name])
        | none => (Except.error (MkfsError.FileNotFound name), tr)
      | Target.raw _ => (Except.error MkfsError.BadConfig, tr)
      | Target.dir _ => (Except.error MkfsError.BadConfig, tr)

/-- `mkfs` (`src/mkfs/main.rs:77-182`): the layout phase followed by the
output phase (`src/mkfs/main.rs:168-181`): build the image bytes, write
them to the output file, and report size and node counts. -/
def mkfs (isz : Nat) (cfg : Config) (fs : FS) :
    Except MkfsError MkfsReport × List FsOp :=
  match mkfsCore isz cfg fs with
  | (Except.error e, tr) => (Except.error e, tr)
  | (Except.ok (img, inodes, dnodes), tr) =>
    match cfg.output with
    | Target.file oname =>
      let compact := Image.build img
      (Except.ok ⟨compact.length, inodes.length, dnodes.length⟩,
        tr ++ [FsOp.write oname compact])
    | Target.raw _ => (Except.error MkfsError.BadConfig, tr)
    | Target.dir _ => (Except.error MkfsError.BadConfig, tr)

/-- `STATIC_LOG_MAX_CHARACTERS` from `src/kernel/src/log.rs:25`: the
capacity of the logger's backing `ArrayString` in bytes. -/
def STATIC_LOG_MAX_CHARACTERS : Nat := 65535

/-- `StaticLog` from `src/kernel/src/log.rs:27-29`: a bounded in-memory
buffer; `content` holds the stored bytes (length at most
`STATIC_LOG_MAX_CHARACTERS`). -/
structure StaticLog where
  content : List Nat
deriving DecidableEq, Repr

/-- `StaticLog::new` from `src/kernel/src/log.rs:32-36`. -/
def StaticLog.new : StaticLog := ⟨[]⟩

/-- `StaticLog::write_str` from `src/kernel/src/log.rs:40-47`: if the
message is longer than the remaining capacity, fail with no effect;
otherwise emit the bytes to the raw sink (`limine::print_bytes`) and
append them to the stored content. Returns the new logger state, the
bytes emitted to the sink, and the `fmt::Result` success flag. -/
def StaticLog.write_str (log : StaticLog) (s : List Nat) :
    StaticLog × List Nat × Bool :=
  if s.length > STATIC_LOG_MAX_CHARACTERS - log.content.length then
    (log, [], false)
  else
    (⟨log.content ++ s⟩, s, true)

/-- Run a sequence of `write_str` calls, threading the logger state
(failed writes leave the state as they found it). -/
def runWrites : StaticLog → List (List Nat) → StaticLog
  | log, [] => log
  | log, m :: ms => runWrites (log.write_str m).1 ms

/-- A concrete host filesystem holding a one-byte payload file. -/
def fsA : FS := fun p => if p = "kernel.bin" then some [7] else none

/-- A concrete configuration: raw one-byte bootloader, one-byte payload
file, file output, directboot on. -/
def cfgA : Config :=
  ⟨Target.raw [1], Target.file "image.bin", Target.file "kernel.bin", true, 512⟩

/-- Like `cfgA` but with a raw empty bootloader. -/
def cfgB : Config :=
  ⟨Target.raw [], Target.file "image.bin", Target.file "kernel.bin", true, 512⟩

/-- Like `cfgA` but with a payload path that does not exist in `fsA`. -/
def cfgC : Config :=
  ⟨Target.raw [1], Target.file "image.bin", Target.file "missing.bin", true, 512⟩

/-- Like `cfgA` but with `directboot` disabled. -/
def cfgD : Config :=
  ⟨Target.raw [1], Target.file "image.bin", Target.file "kernel.bin", false, 512⟩

/-- A logger whose buffer is filled to capacity. -/
def fullLog : StaticLog := ⟨List.replicate STATIC_LOG_MAX_CHARACTERS 0⟩

lemma padTrunc_length (n : Nat) (l : List Nat) : (padTrunc n l).length = n := by
  simp only [padTrunc, List.length_take, List.length_append, List.length_replicate]
  omega

lemma serializeSB_length (sb : SuperBlock) : (serializeSB sb).length = SB_SIZE :=
  padTrunc_length _ _

lemma serializeInode_length (i : Inode) : (serializeInode i).length = SECTOR_SIZE :=
  padTrunc_length _ _

lemma makeDnodes_length (n : Nat) : ∀ c : List Nat, (makeDnodes n c).length = n := by
  induction n with
  | zero => intro c; rfl
  | succ m ih =>
    intro c
    by_cases h : SECTOR_SIZE ≤ c.length
    · simp only [makeDnodes, if_pos h, List.length_cons, ih]
    · simp only [makeDnodes, if_neg h, List.length_cons, ih]

lemma makeDnodes_mem_length (n : Nat) :
    ∀ (c d : List Nat), d ∈ makeDnodes n c → d.length = SECTOR_SIZE := by
  induction n with
  | zero => intro c d h; cases h
  | succ m ih =>
    intro c d h
    by_cases hc : SECTOR_SIZE ≤ c.length
    · simp only [makeDnodes, if_pos hc, List.mem_cons] at h
      rcases h with h | h
      · subst h; simp only [List.length_take]; omega
      · exact ih _ _ h
    · simp only [makeDnodes, if_neg hc, List.mem_cons] at h
      rcases h with h | h
      · subst h
        simp only [List.length_append, List.length_replicate]
        omega
      · exact ih _ _ h

lemma flatten_length_const (k : Nat) :
    ∀ l : List (List Nat), (∀ x ∈ l, x.length = k) → l.flatten.length = k * l.length := by
  intro l
  induction l with
  | nil => intro _; simp
  | cons x xs ih =>
    intro h
    simp only [List.flatten_cons, List.length_append, List.length_cons]
    rw [h x (List.mem_cons_self x xs), ih (fun y hy => h y (List.mem_cons_of_mem x hy))]
    ring

lemma Image.build_length (img : Image)
    (h : ∀ nd ∈ img.nodes, (serializeNode nd).length = SECTOR_SIZE) :
    (Image.build img).length = img.boot.length + SB_SIZE + SECTOR_SIZE * img.nodes.length := by
  unfold Image.build
  rw [List.length_append, List.length_append, serializeSB_length]
  rw [flatten_length_const SECTOR_SIZE _ ?memh, List.length_map]
  case memh =>
    intro x hx
    rcases List.mem_map.mp hx with ⟨nd, hnd, rfl⟩
    exact h nd hnd

/-- The superblock a successful single-file build carries: `directboot`
is set exactly when the flag is on and the payload's file name equals the
direct-boot target (`src/mkfs/main.rs:134-136`). -/
def builtSB (cfg : Config) (name : String) (len : Nat) : SuperBlock :=
  if cfg.directboot = true ∧ fileName name = DIRECT_BOOT_TARGET then
    { SuperBlock.new 1 cfg.block_size with directboot := some (payloadCluster len) }
  else SuperBlock.new 1 cfg.block_size

/-- The inode a successful single-file build constructs
(`src/mkfs/main.rs:138-141`). -/
def builtInode (name : String) (len : Nat) : Inode :=
  ⟨fileName name, payloadCluster len⟩

lemma mkfsCore_eq (cfg : Config) (fs : FS) (boot : List Nat) (btr : List FsOp)
    (name : String) (content : List Nat)
    (hb : loadBoot cfg fs = (Except.ok boot, btr)) (hbne : boot ≠ [])
    (hs : cfg.source = Target.file name) (hc : fs name = some content) :
    mkfsCore SECTOR_SIZE cfg fs =
      (Except.ok
        (⟨builtSB cfg name content.length, boot,
            Node.inode (builtInode name content.length) ::
              (makeDnodes (payloadSectors content.length) content).map Node.dnode⟩,
          [builtInode name content.length],
          makeDnodes (payloadSectors content.length) content),
        btr ++ [FsOp.read name]) := by
  unfold mkfsCore
  rw [hb]
  simp only [if_neg hbne, ne_eq, not_true_eq_false, if_false, hs, hc, ite_self]
  simp only [builtSB, builtInode, payloadSectors, payloadCluster, Cluster.new]

lemma loadBoot_trace (cfg : Config) (fs : FS) (res : Except MkfsError (List Nat))
    (btr : List FsOp) (hb : loadBoot cfg fs = (res, btr)) :
    ∀ op ∈ btr, ∃ bn, cfg.bootloader = Target.file bn ∧ op = FsOp.read bn := by
  intro op hop
  unfold loadBoot at hb
  split at hb
  case _ bn heq =>
    split at hb
    · cases hb
      simp only [List.mem_singleton] at hop
      exact ⟨bn, heq, hop⟩
    · cases hb
      cases hop
  case _ d heq =>
    cases hb
    cases hop
  case _ ts heq =>
    cases hb
    cases hop

lemma loadBoot_no_write (cfg : Config) (fs : FS) (res : Except MkfsError (List Nat))
    (btr : List FsOp) (hb : loadBoot cfg fs = (res, btr)) :
    ∀ (p : String) (d : List Nat), FsOp.write p d ∉ btr := by
  intro p d hmem
  rcases loadBoot_trace cfg fs res btr hb _ hmem with ⟨bn, _, heq⟩
  cases heq

lemma mkfs_of_core_error (isz : Nat) (cfg : Config) (fs : FS) (e : MkfsError)
    (tr : List FsOp) (h : mkfsCore isz cfg fs = (Except.error e, tr)) :
    mkfs isz cfg fs = (Except.error e, tr) := by
  unfold mkfs
  rw [h]

lemma mkfsCore_empty_boot (isz : Nat) (cfg : Config) (fs : FS) (btr : List FsOp)
    (hb : loadBoot cfg fs = (Except.ok [], btr)) :
    mkfsCore isz cfg fs = (Except.error MkfsError.EmptyBootloader, btr) := by
  unfold mkfsCore
  rw [hb]
  simp

lemma mkfsCore_invalid_inode (isz : Nat) (cfg : Config) (fs : FS) (boot : List Nat)
    (btr : List FsOp) (hisz : isz ≠ SECTOR_SIZE)
    (hb : loadBoot cfg fs = (Except.ok boot, btr)) (hbne : boot ≠ []) :
    mkfsCore isz cfg fs = (Except.error (MkfsError.InvalidInode isz), btr) := by
  unfold mkfsCore
  rw [hb]
  simp [if_neg hbne, hisz]

lemma mkfsCore_source_missing (cfg : Config) (fs : FS) (boot : List Nat)
    (btr : List FsOp) (name : String)
    (hb : loadBoot cfg fs = (Except.ok boot, btr)) (hbne : boot ≠ [])
    (hs : cfg.source = Target.file name) (hc : fs name = none) :
    mkfsCore SECTOR_SIZE cfg fs = (Except.error (MkfsError.FileNotFound name), btr) := by
  unfold mkfsCore
  rw [hb]
  simp [if_neg hbne, hs, hc]

lemma makeDnodes_get_full :
    ∀ (i n : Nat) (c : List Nat), i < n → SECTOR_SIZE * (i + 1) ≤ c.length →
      (makeDnodes n c).get? i = some ((c.drop (SECTOR_SIZE * i)).take SECTOR_SIZE) := by
  intro i
  induction i with
  | zero =>
    intro n c hn hlen
    match n, hn with
    | Nat.succ m, _ =>
      have h : SECTOR_SIZE ≤ c.length := by omega
      simp only [makeDnodes, if_pos h, List.get?_cons_zero, Nat.mul_zero, List.drop_zero]
  | succ i ih =>
    intro n c hn hlen
    match n, hn with
    | Nat.succ m, _ =>
      have h : SECTOR_SIZE ≤ c.length := by
        simp only [SECTOR_SIZE] at hlen ⊢; omega
      simp only [makeDnodes, if_pos h, List.get?_cons_succ]
      have hlen2 : SECTOR_SIZE * (i + 1) ≤ (c.drop SECTOR_SIZE).length := by
        rw [List.length_drop]
        simp only [SECTOR_SIZE] at hlen ⊢; omega
      rw [ih m (c.drop SECTOR_SIZE) (by omega) hlen2]
      rw [List.drop_drop]
      have e : SECTOR_SIZE + SECTOR_SIZE * i = SECTOR_SIZE * (i + 1) := by ring
      rw [e]

lemma makeDnodes_get_last :
    ∀ (i n : Nat) (c : List Nat), i < n → SECTOR_SIZE * i ≤ c.length →
      c.length < SECTOR_SIZE * (i + 1) →
      (makeDnodes n c).get? i =
        some (c.drop (SECTOR_SIZE * i) ++
          List.replicate (SECTOR_SIZE - (c.length - SECTOR_SIZE * i)) 0) := by
  intro i
  induction i with
  | zero =>
    intro n c hn hlo hhi
    match n, hn with
    | Nat.succ m, _ =>
      have h : ¬ SECTOR_SIZE ≤ c.length := by omega
      simp only [makeDnodes, if_neg h, List.get?_cons_zero, Nat.mul_zero, List.drop_zero,
        Nat.sub_zero]
  | succ i ih =>
    intro n c hn hlo hhi
    match n, hn with
    | Nat.succ m, _ =>
      have h : SECTOR_SIZE ≤ c.length := by
        simp only [SECTOR_SIZE] at hlo ⊢; omega
      simp only [makeDnodes, if_pos h, List.get?_cons_succ]
      have hd : (c.drop SECTOR_SIZE).length = c.length - SECTOR_SIZE := List.length_drop _ _
      rw [ih m (c.drop SECTOR_SIZE) (by omega)
        (by rw [hd]; simp only [SECTOR_SIZE] at hlo ⊢; omega)
        (by rw [hd]; simp only [SECTOR_SIZE] at hhi ⊢; omega)]
      rw [List.drop_drop, hd]
      have e1 : SECTOR_SIZE + SECTOR_SIZE * i = SECTOR_SIZE * (i + 1) := by ring
      have e2 : SECTOR_SIZE - (c.length - SECTOR_SIZE - SECTOR_SIZE * i) =
          SECTOR_SIZE - (c.length - SECTOR_SIZE * (i + 1)) := by omega
      rw [e1, e2]

lemma fullLog_length : fullLog.content.length = STATIC_LOG_MAX_CHARACTERS := by
  simp only [fullLog, List.length_replicate]

lemma write_str_nil (log : StaticLog) : (log.write_str []).2.2 = true := by
  simp [StaticLog.write_str]

lemma write_str_keeps_full (log : StaticLog) (m : List Nat)
    (h : log.content.length = STATIC_LOG_MAX_CHARACTERS) :
    (log.write_str m).1.content.length = STATIC_LOG_MAX_CHARACTERS := by
  unfold StaticLog.write_str
  by_cases hc : m.length > STATIC_LOG_MAX_CHARACTERS - log.content.length
  · rw [if_pos hc]
    exact h
  · rw [if_neg hc]
    simp only [List.length_append, h]
    omega

lemma runWrites_keeps_full (msgs : List (List Nat)) :
    ∀ log : StaticLog, log.content.length = STATIC_LOG_MAX_CHARACTERS →
      (runWrites log msgs).content.length = STATIC_LOG_MAX_CHARACTERS := by
  induction msgs with
  | nil => intro log h; exact h
  | cons m ms ih =>
    intro log h
    exact ih _ (write_str_keeps_full log m h)

/-- C10: a `write_str` call whose message is longer than the logger's
remaining capacity fails, leaves the stored content unchanged and emits
nothing to the raw output sink (`src/kernel/src/log.rs:40-43` returns
before `limine::print_bytes` and `push_str`). -/
theorem write_str_overflow_noop (log : StaticLog) (s : List Nat)
    (h : s.length > STATIC_LOG_MAX_CHARACTERS - log.content.length) :
    log.write_str s = (log, [], false) := by
  unfold StaticLog.write_str
  rw [if_pos h]

/-- Witness for `write_str_overflow_noop`: a one-byte write at a full
logger fails with no effect. -/
theorem write_str_overflow_noop_witness :
    StaticLog.write_str fullLog [1] = (fullLog, [], false) :=
  write_str_overflow_noop fullLog [1] (by rw [fullLog_length]; decide)

/-- C9 (counterexample): the claim says that once the logger's capacity
is exhausted "every further write also fails"; but `write_str` of the
empty string at a logger filled to capacity succeeds, because
`s.len() > remaining_capacity()` is false for an empty message
(`src/kernel/src/log.rs:41`). -/
theorem staticlog_full_empty_write_ok :
    fullLog.content.length = STATIC_LOG_MAX_CHARACTERS ∧
    (fullLog.write_str []).2.2 = true :=
  ⟨fullLog_length, write_str_nil fullLog⟩

/-- C9 (amended): every successful `write_str` emits exactly its message
to the raw output sink; and once the logger's content reaches the fixed
capacity `STATIC_LOG_MAX_CHARACTERS`, every further write of a nonempty
message fails, no matter what sequence of writes is attempted in between
(there is no reset). -/
theorem staticlog_write_mirrors_and_fails (log : StaticLog) (s : List Nat)
    (msgs : List (List Nat)) :
    ((log.write_str s).2.2 = true → (log.write_str s).2.1 = s) ∧
    (log.content.length = STATIC_LOG_MAX_CHARACTERS → s ≠ [] →
      ((runWrites log msgs).write_str s).2.2 = false) := by
  constructor
  · intro h
    unfold StaticLog.write_str at h ⊢
    by_cases hc : s.length > STATIC_LOG_MAX_CHARACTERS - log.content.length
    · rw [if_pos hc] at h
      simp at h
    · rw [if_neg hc]
  · intro hfull hs
    have hfull2 := runWrites_keeps_full msgs log hfull
    unfold StaticLog.write_str
    rw [if_pos ?pos]
    case pos =>
      rw [hfull2]
      have := List.length_pos.mpr hs
      omega

/-- Witness for `staticlog_write_mirrors_and_fails`: after a full logger
absorbs two more write attempts, a further one-byte write still fails. -/
theorem staticlog_write_mirrors_and_fails_witness :
    ((runWrites fullLog [[2], []]).write_str [1]).2.2 = false :=
  (staticlog_write_mirrors_and_fails fullLog [1] [[2], []]).2 fullLog_length (by decide)

/-- C6: if the loaded bootloader bytes are empty (file or raw source),
`mkfs` returns `EmptyBootloader` (`src/mkfs/main.rs:93-95`), and at that
point the only file operation that has happened is the bootloader read:
the payload source has not been opened or read and nothing was written. -/
theorem mkfs_empty_bootloader (isz : Nat) (cfg : Config) (fs : FS) (btr : List FsOp)
    (hb : loadBoot cfg fs = (Except.ok [], btr)) :
    mkfs isz cfg fs = (Except.error MkfsError.EmptyBootloader, btr) ∧
    ∀ op ∈ btr, ∃ bn, cfg.bootloader = Target.file bn ∧ op = FsOp.read bn :=
  ⟨mkfs_of_core_error _ _ _ _ _ (mkfsCore_empty_boot isz cfg fs btr hb),
   loadBoot_trace cfg fs _ btr hb⟩

/-- Witness for `mkfs_empty_bootloader`: a raw empty bootloader source. -/
theorem mkfs_empty_bootloader_witness :
    mkfs 512 cfgB fsA = (Except.error MkfsError.EmptyBootloader, []) ∧
    ∀ op ∈ ([] : List FsOp), ∃ bn, cfgB.bootloader = Target.file bn ∧ op = FsOp.read bn :=
  mkfs_empty_bootloader 512 cfgB fsA [] rfl

/-- C7: if the configured source path cannot be opened, `mkfs` returns
`FileNotFound` carrying that path (`src/mkfs/main.rs:118-119`), and the
trace contains no write: the output file is neither created nor written
(writing happens only at `src/mkfs/main.rs:173`, after the full image
buffer is assembled). -/
theorem mkfs_source_not_found (cfg : Config) (fs : FS) (boot : List Nat)
    (btr : List FsOp) (name : String)
    (hb : loadBoot cfg fs = (Except.ok boot, btr)) (hbne : boot ≠ [])
    (hs : cfg.source = Target.file name) (hc : fs name = none) :
    mkfs SECTOR_SIZE cfg fs = (Except.error (MkfsError.FileNotFound name), btr) ∧
    ∀ (p : String) (d : List Nat), FsOp.write p d ∉ btr :=
  ⟨mkfs_of_core_error _ _ _ _ _
      (mkfsCore_source_missing cfg fs boot btr name hb hbne hs hc),
   loadBoot_no_write cfg fs _ btr hb⟩

/-- Witness for `mkfs_source_not_found`: the payload path is absent from
the host filesystem. -/
theorem mkfs_source_not_found_witness :
    mkfs SECTOR_SIZE cfgC fsA = (Except.error (MkfsError.FileNotFound "missing.bin"), []) ∧
    ∀ (p : String) (d : List Nat), FsOp.write p d ∉ ([] : List FsOp) :=
  mkfs_source_not_found cfgC fsA [1] [] "missing.bin" rfl (by decide) rfl (by decide)

/-- C8: if the serialized inode size (the compile-time constant
`size_of::<Inode>()`, modelled by the parameter `isz`) differs from
`SECTOR_SIZE`, `mkfs` fails with `InvalidInode` carrying that size
(`src/mkfs/main.rs:100-102`), before the payload is loaded or any node
is constructed: the only file operation in the trace is the bootloader
read. -/
theorem mkfs_invalid_inode (isz : Nat) (cfg : Config) (fs : FS) (boot : List Nat)
    (btr : List FsOp) (hisz : isz ≠ SECTOR_SIZE)
    (hb : loadBoot cfg fs = (Except.ok boot, btr)) (hbne : boot ≠ []) :
    mkfs isz cfg fs = (Except.error (MkfsError.InvalidInode isz), btr) ∧
    ∀ op ∈ btr, ∃ bn, cfg.bootloader = Target.file bn ∧ op = FsOp.read bn :=
  ⟨mkfs_of_core_error _ _ _ _ _
      (mkfsCore_invalid_inode isz cfg fs boot btr hisz hb hbne),
   loadBoot_trace cfg fs _ btr hb⟩

/-- Witness for `mkfs_invalid_inode`: an inode record of 513 bytes. -/
theorem mkfs_invalid_inode_witness :
    mkfs 513 cfgA fsA = (Except.error (MkfsError.InvalidInode 513), []) ∧
    ∀ op ∈ ([] : List FsOp), ∃ bn, cfgA.bootloader = Target.file bn ∧ op = FsOp.read bn :=
  mkfs_invalid_inode 513 cfgA fsA [1] [] (by decide) rfl (by decide)

/-- C3: every successful build reports (and writes) an image whose total
byte length is `len(boot) + SB_SIZE + SECTOR_SIZE * (1 + dnode_count)`,
where `SB_SIZE` is the serialized superblock size and `dnode_count` the
number of data sectors produced (`src/mkfs/main.rs:60-73,169-181`). -/
theorem mkfs_image_size (cfg : Config) (fs : FS) (boot : List Nat) (btr : List FsOp)
    (name : String) (content : List Nat) (oname : String)
    (hb : loadBoot cfg fs = (Except.ok boot, btr)) (hbne : boot ≠ [])
    (hs : cfg.source = Target.file name) (hc : fs name = some content)
    (ho : cfg.output = Target.file oname) :
    ∃ r tr, mkfs SECTOR_SIZE cfg fs = (Except.ok r, tr) ∧
      r.inode_count = 1 ∧
      r.fssize = boot.length + SB_SIZE + SECTOR_SIZE * (1 + r.dnode_count) := by
  have hcore := mkfsCore_eq cfg fs boot btr name content hb hbne hs hc
  unfold mkfs
  rw [hcore, ho]
  refine ⟨_, _, rfl, rfl, ?_⟩
  rw [Image.build_length]
  · simp only [List.length_cons, List.length_map]
    ring
  · intro nd hnd
    simp only [List.mem_cons] at hnd
    rcases hnd with rfl | hnd
    · exact serializeInode_length _
    · rcases List.mem_map.mp hnd with ⟨d, hd, rfl⟩
      exact makeDnodes_mem_length _ _ _ hd

/-- Witness for `mkfs_image_size`: the concrete one-byte build. -/
theorem mkfs_image_size_witness :
    ∃ r tr, mkfs SECTOR_SIZE cfgA fsA = (Except.ok r, tr) ∧
      r.inode_count = 1 ∧
      r.fssize = ([1] : List Nat).length + SB_SIZE + SECTOR_SIZE * (1 + r.dnode_count) :=
  mkfs_image_size cfgA fsA [1] [] "kernel.bin" [7] "image.bin" rfl (by decide) rfl rfl rfl

/-- C5: on a successful single-file layout, the superblock's `directboot`
field equals exactly the extent stored in the inode's fragment slot 0
when `directboot` is enabled and the payload's file name equals the
direct-boot target name, and is absent otherwise
(`src/mkfs/main.rs:131-141`). -/
theorem mkfs_directboot_iff (cfg : Config) (fs : FS) (boot : List Nat)
    (btr : List FsOp) (name : String) (content : List Nat)
    (hb : loadBoot cfg fs = (Except.ok boot, btr)) (hbne : boot ≠ [])
    (hs : cfg.source = Target.file name) (hc : fs name = some content) :
    ∃ img inode dnodes tr,
      mkfsCore SECTOR_SIZE cfg fs = (Except.ok (img, [inode], dnodes), tr) ∧
      inode.dat0 = payloadCluster content.length ∧
      ((cfg.directboot = true ∧ fileName name = DIRECT_BOOT_TARGET) →
        img.sb.directboot = some inode.dat0) ∧
      (¬(cfg.directboot = true ∧ fileName name = DIRECT_BOOT_TARGET) →
        img.sb.directboot = none) := by
  have hcore := mkfsCore_eq cfg fs boot btr name content hb hbne hs hc
  refine ⟨_, _, _, _, hcore, rfl, ?_, ?_⟩
  · intro h
    simp only [builtSB, if_pos h, builtInode]
  · intro h
    simp only [builtSB, if_neg h, SuperBlock.new]

/-- Witness for `mkfs_directboot_iff`: the concrete one-byte build whose
file name is the direct-boot target. -/
theorem mkfs_directboot_iff_witness :
    ∃ img inode dnodes tr,
      mkfsCore SECTOR_SIZE cfgA fsA = (Except.ok (img, [inode], dnodes), tr) ∧
      inode.dat0 = payloadCluster ([7] : List Nat).length ∧
      ((cfgA.directboot = true ∧ fileName "kernel.bin" = DIRECT_BOOT_TARGET) →
        img.sb.directboot = some inode.dat0) ∧
      (¬(cfgA.directboot = true ∧ fileName "kernel.bin" = DIRECT_BOOT_TARGET) →
        img.sb.directboot = none) :=
  mkfs_directboot_iff cfgA fsA [1] [] "kernel.bin" [7] rfl (by decide) rfl rfl

/-- C4: for a payload whose length is not a multiple of `SECTOR_SIZE`,
the materialization loop (`src/mkfs/main.rs:148-160`) splits the payload
into consecutive `SECTOR_SIZE`-byte chunks in original order: chunk `i`
(for `i < L / SECTOR_SIZE`) is the payload's bytes
`[SECTOR_SIZE*i, SECTOR_SIZE*(i+1))`, and the final payload chunk, at
index `L / SECTOR_SIZE`, holds the payload's trailing `L % SECTOR_SIZE`
bytes at its low offsets followed by zeros up to `SECTOR_SIZE`. -/
theorem mkfs_payload_chunking (payload : List Nat)
    (h : payload.length % SECTOR_SIZE ≠ 0) :
    (∀ i < payload.length / SECTOR_SIZE,
      (makeDnodes (payloadSectors payload.length) payload).get? i =
        some ((payload.drop (SECTOR_SIZE * i)).take SECTOR_SIZE)) ∧
    (makeDnodes (payloadSectors payload.length) payload).get?
        (payload.length / SECTOR_SIZE) =
      some (payload.drop (SECTOR_SIZE * (payload.length / SECTOR_SIZE)) ++
        List.replicate (SECTOR_SIZE - payload.length % SECTOR_SIZE) 0) := by
  have hpos : 0 < SECTOR_SIZE := by decide
  have hmd : payload.length % SECTOR_SIZE +
      SECTOR_SIZE * (payload.length / SECTOR_SIZE) = payload.length :=
    Nat.mod_add_div _ _
  have hml : payload.length % SECTOR_SIZE < SECTOR_SIZE := Nat.mod_lt _ hpos
  have hsec : payloadSectors payload.length = payload.length / SECTOR_SIZE + 2 := by
    unfold payloadSectors payloadCluster Cluster.new
    simp only [if_pos (Nat.pos_of_ne_zero h)]
    simp only [NODES_OFFSET]
    generalize payload.length / SECTOR_SIZE = q
    omega
  have hlo2 : SECTOR_SIZE * (payload.length / SECTOR_SIZE) ≤ payload.length :=
    le_trans (Nat.le_add_left _ _) (le_of_eq hmd)
  constructor
  · intro i hi
    apply makeDnodes_get_full
    · rw [hsec]
      exact Nat.lt_add_right 2 hi
    · have h2 : SECTOR_SIZE * (i + 1) ≤ SECTOR_SIZE * (payload.length / SECTOR_SIZE) :=
        Nat.mul_le_mul_left _ hi
      exact le_trans h2 hlo2
  · have hlt : payload.length / SECTOR_SIZE < payloadSectors payload.length := by
      rw [hsec]
      exact Nat.lt_add_of_pos_right (by decide)
    have hhi2 : payload.length < SECTOR_SIZE * (payload.length / SECTOR_SIZE + 1) := by
      have e : SECTOR_SIZE * (payload.length / SECTOR_SIZE + 1) =
          SECTOR_SIZE * (payload.length / SECTOR_SIZE) + SECTOR_SIZE := by ring
      rw [e]
      calc payload.length
          = payload.length % SECTOR_SIZE + SECTOR_SIZE * (payload.length / SECTOR_SIZE) :=
            hmd.symm
        _ < SECTOR_SIZE + SECTOR_SIZE * (payload.length / SECTOR_SIZE) :=
            Nat.add_lt_add_right hml _
        _ = SECTOR_SIZE * (payload.length / SECTOR_SIZE) + SECTOR_SIZE :=
            Nat.add_comm _ _
    rw [makeDnodes_get_last (payload.length / SECTOR_SIZE)
      (payloadSectors payload.length) payload hlt hlo2 hhi2]
    have hsub : payload.length - SECTOR_SIZE * (payload.length / SECTOR_SIZE) =
        payload.length % SECTOR_SIZE :=
      Nat.sub_eq_of_eq_add hmd.symm
    rw [hsub]

/-- Witness for `mkfs_payload_chunking`: a one-byte payload. -/
theorem mkfs_payload_chunking_witness :
    ([7] : List Nat).length % SECTOR_SIZE ≠ 0 ∧
    ((∀ i < ([7] : List Nat).length / SECTOR_SIZE,
      (makeDnodes (payloadSectors ([7] : List Nat).length) [7]).get? i =
        some ((([7] : List Nat).drop (SECTOR_SIZE * i)).take SECTOR_SIZE)) ∧
    (makeDnodes (payloadSectors ([7] : List Nat).length) [7]).get?
        (([7] : List Nat).length / SECTOR_SIZE) =
      some (([7] : List Nat).drop
          (SECTOR_SIZE * (([7] : List Nat).length / SECTOR_SIZE)) ++
        List.replicate (SECTOR_SIZE - ([7] : List Nat).length % SECTOR_SIZE) 0)) :=
  ⟨by decide, mkfs_payload_chunking [7] (by decide)⟩

set_option maxRecDepth 40000 in
/-- C1 (evaluation at the failing input): for the one-byte payload `[7]`
the code's own block-count expression `len / SECTOR_SIZE +
(len % SECTOR_SIZE > 0)` yields 1 — one data sector should suffice — yet
`mkfs` produces and reports 2 data nodes (fssize 1553 = 1 boot byte +
16 superblock bytes + 3 sectors), because the loop at
`src/mkfs/main.rs:148` runs over `location.start..location.end + 1` with
`end = NODES_OFFSET + 1`, one extra all-zero sector. -/
theorem mkfs_one_byte_report :
    (mkfs SECTOR_SIZE cfgA fsA).1 = Except.ok ⟨1553, 1, 2⟩ ∧
    1 / SECTOR_SIZE + (if 1 % SECTOR_SIZE > 0 then 1 else 0) = 1 := by
  constructor
  · rfl
  · decide

set_option maxRecDepth 40000 in
/-- C2 (evaluation at the failing input): for a payload of length 1 the
recorded extent is `Cluster.new 2 3` — `end = start + ceil(len/512)`,
covering two sectors — not `end = start + ceil(len/512) - 1 = 2` as the
claim states; the extent stored in the built inode's fragment slot 0 is
that same `Cluster.new 2 3`. -/
theorem payload_cluster_one_byte :
    payloadCluster 1 = Cluster.new 2 3 ∧
    payloadCluster 1 ≠
      Cluster.new NODES_OFFSET
        (NODES_OFFSET + (1 / SECTOR_SIZE + (if 1 % SECTOR_SIZE > 0 then 1 else 0)) - 1) ∧
    (∃ pre, (mkfsCore SECTOR_SIZE cfgA fsA).1 = Except.ok pre ∧
      pre.2.1 = [Inode.mk "kernel.bin" (Cluster.new 2 3)]) := by
  refine ⟨rfl, by decide, ⟨_, rfl, rfl⟩⟩
